import Mathlib

/-!
Verification development for the counterpoint chat backend.

The data model and operations below are a shallow embedding of the Rust
sources: 128-bit identifiers and timestamps become `Nat`, SQL tables become
lists of row structures, a transaction becomes explicit state passing where a
failing step returns the original state (rollback), and fallible code returns
`Except`.
-/

deriving instance DecidableEq for Except

namespace Counterpoint

/-! ## Data model (src/src/domain_model, table shapes from the SQL in src/src/infra) -/

/-- Row of the `message` table (struct MessageRow in src/src/infra/message_repo_impl.rs).
`MessageRecord` has the same fields, so we reuse this structure for both. -/
structure MessageRow where
  message_id : Nat
  conversation_id : Nat
  message_offset : Nat
  sender_id : Nat
  content : String
  created_at : Nat
deriving DecidableEq, Repr

/-- Row of the `conversation` table: kind 1 = direct, 2 = group;
`last_msg_at` is NULL before the first message. -/
structure ConversationRow where
  conversation_id : Nat
  kind_id : Nat
  last_msg_off : Nat
  last_msg_at : Option Nat
deriving DecidableEq, Repr

/-- Event types of the outbox (enum EventType). -/
inductive EventType where
  | ChatMessageNew
  | FriendshipNew
  | GroupNew
  | GroupMemberNew
deriving DecidableEq, Repr

/-- Payload of a chat.message.new event (struct ChatMessageNew). -/
structure ChatMessageNewP where
  conversation_id : Nat
  message_id : Nat
  message_offset : Nat
  content : String
  sender : Nat
  username : String
  created_at : Nat
deriving DecidableEq, Repr

/-- Server-to-client events (enum S2CEvent); only the payload shapes the claims
need are carried in full. -/
inductive S2CEventM where
  | ChatMessageNew (p : ChatMessageNewP)
  | FriendshipNew (conversation_id other : Nat) (username : String)
  | GroupNew (conversation_id group_id : Nat) (group_name : String)
  | GroupMemberNew (conversation_id group_id member_id : Nat) (username : String)
deriving DecidableEq, Repr

/-- Row of the `outbox` table. `receivers` and `payload` stand for the JSON
columns `receivers_json` and `payload_json`; delivery bookkeeping columns
default to NULL / now / 0 at insert time. -/
structure OutboxRow where
  event_id : Nat
  event_type : EventType
  partition_key : Option Nat
  receivers : List Nat
  payload : S2CEventM
  created_at : Nat
  delivered_at : Option Nat
  next_attempt_at : Nat
  attempt_count : Nat
  last_error : Option String
deriving DecidableEq, Repr

/-- Row of the `friendship` table (status is always accepted). -/
structure FriendshipRow where
  user_min : Nat
  user_max : Nat
  requested_by : Nat
deriving DecidableEq, Repr

/-- Row of the `direct_pair` table. -/
structure DirectPairRow where
  user_min : Nat
  user_max : Nat
  conversation_id : Nat
deriving DecidableEq, Repr

/-- Status column of the `group_create_idem` table. -/
inductive GroupIdemStatus where
  | Pending
  | Succeeded
  | Failed
deriving DecidableEq, Repr

/-- Row of the `group_create_idem` table; `conversation_id` is NULL until a
repair writes it. -/
structure GroupIdemRow where
  owner_id : Nat
  idem_key : Nat
  proposed_group : Nat
  status : GroupIdemStatus
  conversation_id : Option Nat
deriving DecidableEq, Repr

/-- Row of the `chat_group` table. -/
structure GroupRow where
  group_id : Nat
  owner_id : Nat
  name : String
  conversation_id : Nat
deriving DecidableEq, Repr

/-- The relational store: one list per table touched by the claims.
`counters` maps conversation_id to next_offset, `members` holds
(conversation_id, user_id) pairs, `users` maps user_id to username,
`member_roles` holds (conversation_id, user_id, role name). -/
structure Db where
  counters : List (Nat × Nat)
  messages : List MessageRow
  conversations : List ConversationRow
  members : List (Nat × Nat)
  users : List (Nat × String)
  outbox : List OutboxRow
  friendships : List FriendshipRow
  direct_pairs : List DirectPairRow
  group_idem : List GroupIdemRow
  groups : List GroupRow
  member_roles : List (Nat × Nat × String)
deriving DecidableEq, Repr

/-- The empty database. -/
def emptyDb : Db :=
  { counters := [], messages := [], conversations := [], members := [],
    users := [], outbox := [], friendships := [], direct_pairs := [],
    group_idem := [], groups := [], member_roles := [] }

/-- Error type of the conversation service (enum ChatError in
src/src/application_port/conversation_service.rs); only the variants the
claims reach are carried. -/
inductive ChatError where
  | NotMember
  | Store (msg : String)
deriving DecidableEq, Repr

/-- Error type of the relationship service (enum RelationError). -/
inductive RelationError where
  | UserNotFound
  | NotOwner
  | Store (msg : String)
deriving DecidableEq, Repr

/-! ## Message repository (src/src/infra/message_repo_impl.rs) -/

/-- Step 1 of insert_in_tx: the counter upsert
`INSERT INTO conversation_counter (conversation_id, next_offset) VALUES (?, 1)
 ON DUPLICATE KEY UPDATE next_offset = LAST_INSERT_ID(next_offset + 1)`.
Returns the new table and the assigned offset; when the row is fresh the
stored value is 1 and the code reads the statement result as the assigned
offset. -/
def counterUpsert (counters : List (Nat × Nat)) (cid : Nat) :
    List (Nat × Nat) × Nat :=
  match counters.find? (fun p => p.1 == cid) with
  | some p =>
      (counters.map (fun q => if q.1 == cid then (q.1, q.2 + 1) else q), p.2 + 1)
  | none => (counters ++ [(cid, 1)], 1)

/-- MySqlMessageRepo::insert_in_tx. Step 1 grabs the next offset
unconditionally; step 2 inserts the message row, and a duplicate
`message_id` key takes the idempotent path that fetches the stored row
instead; step 4 advances the conversation pointers of the fetched row with
GREATEST against the current values. Returns the new state and the fetched
row (the returned MessageRecord has exactly its fields). -/
def insert_in_tx (db : Db) (conversation_id sender : Nat) (content : String)
    (message_id now : Nat) : Db × MessageRow :=
  let step1 := counterUpsert db.counters conversation_id
  let assigned_off := step1.2
  let db1 : Db := { db with counters := step1.1 }
  let step23 : Db × MessageRow :=
    match db1.messages.find? (fun m => m.message_id == message_id) with
    | some existing => (db1, existing)
    | none =>
        let fresh : MessageRow :=
          { message_id := message_id, conversation_id := conversation_id,
            message_offset := assigned_off, sender_id := sender,
            content := content, created_at := now }
        ({ db1 with messages := db1.messages ++ [fresh] }, fresh)
  let db2 := step23.1
  let row := step23.2
  let conversations := db2.conversations.map (fun c =>
    if c.conversation_id == row.conversation_id then
      { c with last_msg_off := max c.last_msg_off row.message_offset,
               last_msg_at := some (max (c.last_msg_at.getD 0) row.created_at) }
    else c)
  ({ db2 with conversations := conversations }, row)

/-! ## Membership check (src/src/infra/conversation_role_repo_impl.rs) -/

/-- membership_exists_in_tx: COUNT over conversation_member is positive. -/
def membership_exists_in_tx (db : Db) (cid uid : Nat) : Bool :=
  db.members.any (fun p => p.1 == cid && p.2 == uid)

/-- get_conversation_member_in_tx: the user ids of the members of a
conversation. -/
def conversation_members (db : Db) (cid : Nat) : List Nat :=
  (db.members.filter (fun p => p.1 == cid)).map (fun p => p.2)

/-- MySqlOutboxRepo::enqueue_in_tx: INSERT with
ON DUPLICATE KEY UPDATE event_id = event_id, so an existing event_id leaves
the table unchanged. -/
def enqueue_in_tx (outbox : List OutboxRow) (ev : OutboxRow) : List OutboxRow :=
  if outbox.any (fun r => r.event_id == ev.event_id) then outbox
  else outbox ++ [ev]

/-! ## Conversation service (src/src/domain/conversation_service_impl.rs) -/

/-- RealConversationService::send_message. One transaction: membership check
(fail NotMember, transaction dropped), insert_in_tx, receivers = members
minus sender, sender username lookup, outbox enqueue of chat.message.new,
commit. A failing step returns the original state (rollback). The fresh
event_id of OutboxEvent::new is a parameter, as is the clock. -/
def send_message (db : Db) (conversation_id sender : Nat) (content : String)
    (message_id now event_id : Nat) : Db × Except ChatError MessageRow :=
  if membership_exists_in_tx db conversation_id sender then
    let ins := insert_in_tx db conversation_id sender content message_id now
    let db1 := ins.1
    let record := ins.2
    match (db1.users.find? (fun u => u.1 == record.sender_id)) with
    | none => (db, Except.error (ChatError.Store "query sender username"))
    | some u =>
        let receivers :=
          (conversation_members db1 conversation_id).filter (fun m => m != sender)
        let ev : OutboxRow :=
          { event_id := event_id, event_type := EventType.ChatMessageNew,
            partition_key := some conversation_id, receivers := receivers,
            payload := S2CEventM.ChatMessageNew
              { conversation_id := record.conversation_id,
                message_id := record.message_id,
                message_offset := record.message_offset,
                content := record.content, sender := record.sender_id,
                username := u.2, created_at := record.created_at },
            created_at := now, delivered_at := none, next_attempt_at := now,
            attempt_count := 0, last_error := none }
        ({ db1 with outbox := enqueue_in_tx db1.outbox ev }, Except.ok record)
  else
    (db, Except.error ChatError.NotMember)

/-! ## History query (src/src/infra/message_repo_impl.rs list_before_in_tx) -/

/-- Descending order on message offsets, the ORDER BY message_offset DESC of
the history queries. -/
def msgOffGE (a b : MessageRow) : Prop := b.message_offset ≤ a.message_offset

instance : DecidableRel msgOffGE := fun a b => Nat.decLe _ _

instance : IsTotal MessageRow msgOffGE :=
  ⟨fun a b => Nat.le_total b.message_offset a.message_offset⟩

instance : IsTrans MessageRow msgOffGE :=
  ⟨fun _ _ _ h1 h2 => Nat.le_trans h2 h1⟩

/-- The WHERE clause of list_before_in_tx: rows of the conversation, below
the cursor offset when one is given. -/
def historyFilter (messages : List MessageRow) (cid : Nat)
    (before : Option Nat) : List MessageRow :=
  match before with
  | some b =>
      messages.filter (fun m =>
        m.conversation_id == cid && decide (m.message_offset < b))
  | none => messages.filter (fun m => m.conversation_id == cid)

/-- MySqlMessageRepo::list_before_in_tx: filter, ORDER BY message_offset
DESC, LIMIT page_size, then reverse in memory. -/
def list_before_in_tx (messages : List MessageRow) (cid page_size : Nat)
    (before : Option Nat) : List MessageRow :=
  (((historyFilter messages cid before).insertionSort msgOffGE).take
    page_size).reverse

/-- RealConversationService::get_history: membership check inside the
transaction, then the page query, then commit (the transaction only reads,
so the state is not returned). -/
def get_history (db : Db) (user_id cid page_size : Nat)
    (before : Option Nat) : Except ChatError (List MessageRow) :=
  if membership_exists_in_tx db cid user_id then
    Except.ok (list_before_in_tx db.messages cid page_size before)
  else
    Except.error ChatError.NotMember

/-! ## Friendship repository (src/src/infra/friendship_repo_impl.rs) -/

/-- Result of the friendship claim (enum FriendshipIdemClaim). -/
inductive FriendshipIdemClaim where
  | Won
  | Existing
deriving DecidableEq, Repr

/-- MySqlFriendshipRepo::claim: refuse a == b and a requester outside the
pair, normalise through UserPair::new, then race the INSERT on the unique
(user_min, user_max) key: a duplicate key means Existing. -/
def friendship_claim (db : Db) (a b requested_by : Nat) :
    Db × Except RelationError FriendshipIdemClaim :=
  if a == b then
    (db, Except.error (RelationError.Store "cannot create direct conversation with self"))
  else if requested_by != a && requested_by != b then
    (db, Except.error (RelationError.Store "bad request"))
  else
    let mn := min a b
    let mx := max a b
    if db.friendships.any (fun f => f.user_min == mn && f.user_max == mx) then
      (db, Except.ok FriendshipIdemClaim.Existing)
    else
      ({ db with friendships := db.friendships ++ [⟨mn, mx, requested_by⟩] },
       Except.ok FriendshipIdemClaim.Won)

/-- MySqlFriendshipRepo::insert_friendship_in_tx: refuse a == b, normalise
through UserPair::new, insert the direct_pair row. -/
def insert_friendship_in_tx (db : Db) (a b conversation_id : Nat) :
    Db × Except RelationError Unit :=
  if a == b then
    (db, Except.error (RelationError.Store "cannot create direct conversation with self"))
  else
    ({ db with direct_pairs :=
        db.direct_pairs ++ [⟨min a b, max a b, conversation_id⟩] },
     Except.ok ())

/-- MySqlFriendshipRepo::get_conversation_id_by_friendship: the SELECT binds
a to user_min and b to user_max as given, without normalising the pair;
fetch_one fails when no row matches. -/
def get_conversation_id_by_friendship (db : Db) (a b : Nat) :
    Except RelationError Nat :=
  match db.direct_pairs.find? (fun r => r.user_min == a && r.user_max == b) with
  | some r => Except.ok r.conversation_id
  | none => Except.error (RelationError.Store "select direct conversation")

/-- MySqlConversationRepo::create_direct_conversation_in_tx: insert the
conversation row with kind 1, its counter at 1 and the two members. The
conversation_id is a fresh UUID, so the duplicate-key failure of the plain
INSERT cannot fire and is not modelled. -/
def create_direct_conversation_in_tx (db : Db) (a b conversation_id : Nat) : Db :=
  { db with
    conversations := db.conversations ++
      [{ conversation_id := conversation_id, kind_id := 1,
         last_msg_off := 0, last_msg_at := none }],
    counters := db.counters ++ [(conversation_id, 1)],
    members := db.members ++ [(conversation_id, a), (conversation_id, b)] }

/-! ## Relationship service (src/src/domain/relationship_service_impl.rs) -/

/-- RealRelationshipService::add_friend. The claim runs on the pool (outside
any transaction); the winner path then runs one transaction creating the
conversation, the direct_pair row and the friendship.new outbox event; the
follower path reads the direct_pair row back with the arguments in caller
order. The fresh conversation_id and event_id of the winner path and the
clock are parameters; the idempotency key argument of the source is unused
there and omitted. -/
def add_friend (db : Db) (me other : Nat) (conv_id event_id now : Nat) :
    Db × Except RelationError Nat :=
  match friendship_claim db me other me with
  | (db1, Except.error e) => (db1, Except.error e)
  | (db1, Except.ok FriendshipIdemClaim.Won) =>
      let db2 := create_direct_conversation_in_tx db1 me other conv_id
      match insert_friendship_in_tx db2 me other conv_id with
      | (_, Except.error e) => (db1, Except.error e)
      | (db3, Except.ok _) =>
          match db3.users.find? (fun u => u.1 == me) with
          | none => (db1, Except.error RelationError.UserNotFound)
          | some u =>
              let ev : OutboxRow :=
                { event_id := event_id, event_type := EventType.FriendshipNew,
                  partition_key := some conv_id, receivers := [other],
                  payload := S2CEventM.FriendshipNew conv_id me u.2,
                  created_at := now, delivered_at := none,
                  next_attempt_at := now, attempt_count := 0,
                  last_error := none }
              ({ db3 with outbox := enqueue_in_tx db3.outbox ev },
               Except.ok conv_id)
  | (db1, Except.ok FriendshipIdemClaim.Existing) =>
      match get_conversation_id_by_friendship db1 me other with
      | Except.ok c => (db1, Except.ok c)
      | Except.error _ =>
          (db1, Except.error (RelationError.Store "inconsistent friendship state"))

/-! ## Group idempotency repository (src/src/infra_mysql/group_idem_repo_mysql.rs) -/

/-- Result of the group claim (enum GroupIdemClaim). -/
inductive GroupIdemClaim where
  | Won (group_id : Nat)
  | Existing (group_id : Nat) (status : GroupIdemStatus)
      (conversation_id : Option Nat)
deriving DecidableEq, Repr

/-- A decoded SQL cell: uuid-valued, text-valued, or nullable uuid. -/
inductive SqlValue where
  | uuid (n : Nat)
  | text (s : String)
  | nullableUuid (n : Option Nat)
deriving DecidableEq, Repr

/-- The status column as stored text. -/
def statusText : GroupIdemStatus → String
  | GroupIdemStatus.Pending => "pending"
  | GroupIdemStatus.Succeeded => "succeeded"
  | GroupIdemStatus.Failed => "failed"

/-- The result row of the duplicate-key SELECT of the group claim:
`SELECT proposed_group, status, conversation_id FROM group_create_idem`,
as the list of its named columns. -/
def idemSelectRow (r : GroupIdemRow) : List (String × SqlValue) :=
  [("proposed_group", SqlValue.uuid r.proposed_group),
   ("status", SqlValue.text (statusText r.status)),
   ("conversation_id", SqlValue.nullableUuid r.conversation_id)]

/-- Row::try_get of a uuid column by name; a missing or differently typed
column is a decode error. -/
def tryGetUuid (row : List (String × SqlValue)) (col : String) :
    Except RelationError Nat :=
  match row.find? (fun p => p.1 == col) with
  | some (_, SqlValue.uuid n) => Except.ok n
  | _ => Except.error (RelationError.Store "uuid decode")

/-- Row::try_get of the status column followed by the parse of its text. -/
def tryGetStatus (row : List (String × SqlValue)) (col : String) :
    Except RelationError GroupIdemStatus :=
  match row.find? (fun p => p.1 == col) with
  | some (_, SqlValue.text s) =>
      if s == "pending" then Except.ok GroupIdemStatus.Pending
      else if s == "succeeded" then Except.ok GroupIdemStatus.Succeeded
      else if s == "failed" then Except.ok GroupIdemStatus.Failed
      else Except.error (RelationError.Store "idem bad status")
  | _ => Except.error (RelationError.Store "status decode")

/-- Row::try_get of a nullable uuid column by name. -/
def tryGetNullableUuid (row : List (String × SqlValue)) (col : String) :
    Except RelationError (Option Nat) :=
  match row.find? (fun p => p.1 == col) with
  | some (_, SqlValue.nullableUuid n) => Except.ok n
  | _ => Except.error (RelationError.Store "uuid decode")

/-- MySqlGroupIdemRepo::claim: race the INSERT of the pending row on the
unique (owner_id, idem_key) key; on a duplicate key, SELECT the stored row
and decode the columns named "group_id", "status" and "conversation_id" in
that order. -/
def group_idem_claim (db : Db) (owner key proposed_group : Nat) :
    Db × Except RelationError GroupIdemClaim :=
  match db.group_idem.find? (fun r => r.owner_id == owner && r.idem_key == key) with
  | none =>
      ({ db with group_idem := db.group_idem ++
          [{ owner_id := owner, idem_key := key,
             proposed_group := proposed_group,
             status := GroupIdemStatus.Pending, conversation_id := none }] },
       Except.ok (GroupIdemClaim.Won proposed_group))
  | some r =>
      let row := idemSelectRow r
      match tryGetUuid row "group_id" with
      | Except.error e => (db, Except.error e)
      | Except.ok gid =>
          match tryGetStatus row "status" with
          | Except.error e => (db, Except.error e)
          | Except.ok status =>
              match tryGetNullableUuid row "conversation_id" with
              | Except.error e => (db, Except.error e)
              | Except.ok conv =>
                  (db, Except.ok (GroupIdemClaim.Existing gid status conv))

/-- MySqlGroupIdemRepo::mark_succeeded: UPDATE group_create_idem SET
status = succeeded WHERE the owner, key, proposed_group AND the stored
conversation_id all match; a NULL stored conversation_id matches nothing,
and the conversation_id column itself is not SET. -/
def mark_succeeded (db : Db) (owner key group_id conversation_id : Nat) : Db :=
  { db with group_idem := db.group_idem.map (fun r =>
      if r.owner_id == owner && r.idem_key == key &&
         r.proposed_group == group_id &&
         r.conversation_id == some conversation_id then
        { r with status := GroupIdemStatus.Succeeded }
      else r) }

/-- MySqlGroupIdemRepo::mark_failed: UPDATE SET status = failed WHERE the
owner, key and proposed_group match. -/
def mark_failed (db : Db) (owner key group_id : Nat) : Db :=
  { db with group_idem := db.group_idem.map (fun r =>
      if r.owner_id == owner && r.idem_key == key &&
         r.proposed_group == group_id then
        { r with status := GroupIdemStatus.Failed }
      else r) }

/-- MySqlGroupRepo::get_conversation_id_by_group: look the group row up. -/
def get_conversation_id_by_group (db : Db) (group_id : Nat) : Option Nat :=
  (db.groups.find? (fun g => g.group_id == group_id)).map
    (fun g => g.conversation_id)

/-- RealRelationshipService::create_group_internal: one transaction creating
the group conversation (kind 2) with its counter, the group row, the two
default roles and the owner role assignment. The fresh ids make the inserts
succeed. -/
def create_group_internal (db : Db) (owner : Nat) (name : String)
    (group_id conv_id : Nat) : Db × (Nat × Nat) :=
  ({ db with
      conversations := db.conversations ++
        [{ conversation_id := conv_id, kind_id := 2,
           last_msg_off := 0, last_msg_at := none }],
      counters := db.counters ++ [(conv_id, 1)],
      groups := db.groups ++
        [{ group_id := group_id, owner_id := owner, name := name,
           conversation_id := conv_id }],
      member_roles := db.member_roles ++ [(conv_id, owner, "owner")] },
   (group_id, conv_id))

/-- RealRelationshipService::create_group: claim the (owner, key) row with a
fresh proposed group id; the winner creates the group and best-effort marks
the claim succeeded; an existing succeeded claim with a cached
conversation_id returns the cache; pending or uncached claims read the group
row as source of truth and repair the claim; a failed claim is terminal.
The fresh group id and conversation id are parameters. -/
def create_group (db : Db) (owner : Nat) (name : String) (key : Nat)
    (proposed_gid conv_id : Nat) : Db × Except RelationError (Nat × Nat) :=
  match group_idem_claim db owner key proposed_gid with
  | (db1, Except.error e) => (db1, Except.error e)
  | (db1, Except.ok (GroupIdemClaim.Won gid)) =>
      let internal := create_group_internal db1 owner name gid conv_id
      let pair := internal.2
      (mark_succeeded internal.1 owner key pair.1 pair.2, Except.ok pair)
  | (db1, Except.ok (GroupIdemClaim.Existing gid GroupIdemStatus.Succeeded (some c))) =>
      (db1, Except.ok (gid, c))
  | (db1, Except.ok (GroupIdemClaim.Existing gid GroupIdemStatus.Succeeded none)) =>
      match get_conversation_id_by_group db1 gid with
      | some c => (mark_succeeded db1 owner key gid c, Except.ok (gid, c))
      | none => (db1, Except.error (RelationError.Store "inconsistent idempotency state"))
  | (db1, Except.ok (GroupIdemClaim.Existing gid GroupIdemStatus.Pending _)) =>
      match get_conversation_id_by_group db1 gid with
      | some c => (mark_succeeded db1 owner key gid c, Except.ok (gid, c))
      | none => (db1, Except.error (RelationError.Store "inconsistent idempotency state"))
  | (db1, Except.ok (GroupIdemClaim.Existing _ GroupIdemStatus.Failed _)) =>
      (db1, Except.error (RelationError.Store "previous attempt failed"))

/-! ## Outbox claiming and the notifier
(src/src/infra_mysql/outbox_repo_mysql.rs, src/src/server/notifier.rs) -/

/-- The WHERE clause of claim_ready_batch_in_tx:
delivered_at IS NULL AND next_attempt_at is at most now. -/
def outboxReady (now : Nat) (r : OutboxRow) : Bool :=
  r.delivered_at == none && decide (r.next_attempt_at ≤ now)

/-- Ascending order on created_at, the ORDER BY created_at ASC of the claim
query. -/
def createdLE (a b : OutboxRow) : Prop := a.created_at ≤ b.created_at

instance : DecidableRel createdLE := fun a b => Nat.decLe _ _

instance : IsTotal OutboxRow createdLE :=
  ⟨fun a b => Nat.le_total a.created_at b.created_at⟩

instance : IsTrans OutboxRow createdLE :=
  ⟨fun _ _ _ h1 h2 => Nat.le_trans h1 h2⟩

/-- MySqlOutboxRepo::claim_ready_batch_in_tx: ready rows, oldest created_at
first, LIMIT rows, under a skip-locked row lock held until commit. -/
def claim_ready_batch_in_tx (outbox : List OutboxRow) (now limit : Nat) :
    List OutboxRow :=
  ((outbox.filter (outboxReady now)).insertionSort createdLE).take limit

/-- MySqlOutboxRepo::mark_delivered_in_tx: set delivered_at, clear
last_error. -/
def mark_delivered_in_tx (outbox : List OutboxRow) (event_id t : Nat) :
    List OutboxRow :=
  outbox.map (fun r =>
    if r.event_id == event_id then
      { r with delivered_at := some t, last_error := none }
    else r)

/-- MySqlOutboxRepo::reschedule_in_tx: bump attempt_count, set
next_attempt_at, record the truncated error. -/
def reschedule_in_tx (outbox : List OutboxRow) (event_id next : Nat)
    (err : String) : List OutboxRow :=
  outbox.map (fun r =>
    if r.event_id == event_id then
      { r with attempt_count := r.attempt_count + 1,
               next_attempt_at := next, last_error := some err }
    else r)

/-- Notifier::tick_once: claim up to 256 ready events, publish each, and
mark it delivered on success or reschedule it two seconds out on failure;
the whole batch commits in one transaction. Broker publish outcomes are the
oracle publishOk, keyed by event id. -/
def tick_once (outbox : List OutboxRow) (now : Nat) (publishOk : Nat → Bool) :
    List OutboxRow :=
  let batch := claim_ready_batch_in_tx outbox now 256
  batch.foldl (fun acc ev =>
    if publishOk ev.event_id then mark_delivered_in_tx acc ev.event_id now
    else reschedule_in_tx acc ev.event_id (now + 2) "publish error") outbox

/-- The events a tick publishes (one attempt per claimed event). -/
def published_in_tick (outbox : List OutboxRow) (now : Nat) : List Nat :=
  (claim_ready_batch_in_tx outbox now 256).map (fun r => r.event_id)

/-- Notifier::run restricted to its state effect: iterate tick_once over a
schedule of (clock, publish oracle) inputs. -/
def run_ticks (outbox : List OutboxRow) :
    List (Nat × (Nat → Bool)) → List OutboxRow
  | [] => outbox
  | (now, ok) :: rest => run_ticks (tick_once outbox now ok) rest

/-- Along a schedule of ticks, no tick ever claims (hence publishes) the
given event id. -/
def never_claims (outbox : List OutboxRow) (eid : Nat) :
    List (Nat × (Nat → Bool)) → Prop
  | [] => True
  | (now, ok) :: rest =>
      eid ∉ published_in_tick outbox now ∧
      never_claims (tick_once outbox now ok) eid rest

/-! ## Session hub (src/src/server/session_hub.rs) -/

/-- The errors of OutboundQueue::enqueue, by their message text: a full
mailbox is the backpressure-retry error, a closed mailbox the generic
enqueue failure, a missing record the not-connected error. -/
inductive EnqueueError where
  | BackpressureRetry
  | SendFailed
  | NotConnected
deriving DecidableEq, Repr

/-- A bounded mpsc channel as its occupancy, capacity and closed flag. -/
structure MailboxState where
  len : Nat
  cap : Nat
  closed : Bool
deriving DecidableEq, Repr

/-- A ClientRecord as the session hub sees it from enqueue: the user and the
mailbox channel (control channel, join handle and token live elsewhere). -/
structure HubRecord where
  user_id : Nat
  mailbox : MailboxState
deriving DecidableEq, Repr

/-- SessionHub::enqueue (OutboundQueue): look the receiver up in
online_users and try_send on the mailbox; TrySendError::Full is the
backpressure-retry error, a closed channel the generic failure, a missing
record the not-connected error. A successful try_send occupies one slot. -/
def hub_enqueue (online : List HubRecord) (receiver : Nat) :
    List HubRecord × Except EnqueueError Unit :=
  match online.find? (fun r => r.user_id == receiver) with
  | some r =>
      if r.mailbox.closed then (online, Except.error EnqueueError.SendFailed)
      else if r.mailbox.cap ≤ r.mailbox.len then
        (online, Except.error EnqueueError.BackpressureRetry)
      else
        (online.map (fun q =>
          if q.user_id == receiver then
            { q with mailbox := { q.mailbox with len := q.mailbox.len + 1 } }
          else q),
         Except.ok ())
  | none => (online, Except.error EnqueueError.NotConnected)

/-- Outcomes of an event handler (enum HandleOutcome). -/
inductive HandleOutcome where
  | Commit
  | Retry
  | SkipCommit
deriving DecidableEq, Repr

/-- ConnFanoutHandler::handle: parse the envelope (a parse failure is an
Err), then enqueue the body to every receiver, logging dropped enqueues, and
return Commit. The parsed receivers stand in for the payload bytes. -/
def fanout_handle (online : List HubRecord) (parsed : Option (List Nat)) :
    List HubRecord × Except String HandleOutcome :=
  match parsed with
  | none => (online, Except.error "envelope parse")
  | some receivers =>
      (receivers.foldl (fun acc r => (hub_enqueue acc r).1) online,
       Except.ok HandleOutcome.Commit)

/-- KafkaConsumer::run, the per-message decision: Commit and SkipCommit
outcomes commit the offset; Retry and handler errors do not. -/
def consumer_commits : Except String HandleOutcome → Bool
  | Except.ok HandleOutcome.Commit => true
  | Except.ok HandleOutcome.SkipCommit => true
  | Except.ok HandleOutcome.Retry => false
  | Except.error _ => false

/-- The session hub state for accept_connection: the online map from
user_id to the cancellation token of its record, the cancelled flag of
every token ever created, and a fresh-token counter (CancellationToken::new
yields a token no one has cancelled). -/
structure SessionHubState where
  online_users : List (Nat × Nat)
  tokens : List (Nat × Bool)
  next_token : Nat
deriving DecidableEq, Repr

/-- DashMap::insert: replace the value under an existing key, append
otherwise. -/
def dashInsert (m : List (Nat × Nat)) (k v : Nat) : List (Nat × Nat) :=
  if m.any (fun p => p.1 == k) then
    m.map (fun p => if p.1 == k then (k, v) else p)
  else m ++ [(k, v)]

/-- SessionHub::accept_connection, the online-map effect: create a fresh
cancellation token, spawn the actor, and insert the new ClientRecord over
whatever record the user had; nothing cancels the previous token. -/
def accept_connection (st : SessionHubState) (uid : Nat) : SessionHubState :=
  { online_users := dashInsert st.online_users uid st.next_token,
    tokens := st.tokens ++ [(st.next_token, false)],
    next_token := st.next_token + 1 }

/-- Whether a token has been cancelled in a hub state (unknown tokens read
as not cancelled). -/
def token_cancelled (st : SessionHubState) (t : Nat) : Bool :=
  ((st.tokens.find? (fun p => p.1 == t)).map (fun p => p.2)).getD false

/-! ## Actor configuration (src/src/server/session_hub.rs) -/

/-- struct ActorConfig. -/
structure ActorConfig where
  max_inflight_messages : Nat
  max_inflight_results : Nat
  max_worker_timeout : Nat
deriving DecidableEq, Repr

/-- The config accept_connection builds for every actor. -/
def acceptConnectionConfig : ActorConfig :=
  { max_inflight_messages := 64, max_inflight_results := 1024,
    max_worker_timeout := 1000 }

/-- The per-task timeout the inbound receiver arms, in milliseconds:
Duration::from_secs(config.max_worker_timeout). -/
def worker_timeout_millis (c : ActorConfig) : Nat :=
  c.max_worker_timeout * 1000

/-! ## Shared helper lemmas -/

/-- A map whose function fixes every member is the identity. -/
theorem list_map_eq_self {α : Type} (l : List α) (f : α → α)
    (h : ∀ a ∈ l, f a = a) : l.map f = l := by
  induction l with
  | nil => rfl
  | cons x xs ih =>
      simp only [List.map_cons, h x (by simp)]
      rw [ih (fun a ha => h a (by simp [ha]))]

/-- Bumping the counter of cid rewrites the first (hence any) hit of the
lookup accordingly. -/
theorem find?_counter_bump (counters : List (Nat × Nat)) (cid : Nat)
    (c0 : Nat × Nat)
    (h : counters.find? (fun p => p.1 == cid) = some c0) :
    (counters.map (fun q => if q.1 == cid then (q.1, q.2 + 1) else q)).find?
        (fun p => p.1 == cid) = some (c0.1, c0.2 + 1) := by
  induction counters with
  | nil => simp at h
  | cons q qs ih =>
      by_cases hq : q.1 = cid
      · simp only [List.find?_cons, show (q.1 == cid) = true by simp [hq]] at h
        simp only [List.map_cons, show (q.1 == cid) = true by simp [hq],
          if_true, List.find?_cons]
        cases h
        simp [hq]
      · simp only [List.find?_cons, show (q.1 == cid) = false by simp [hq]] at h
        simp only [List.map_cons, show (q.1 == cid) = false by simp [hq],
          Bool.false_eq_true, if_false, List.find?_cons]
        exact ih h

/-! ## Claim C6 -/

/-- Claim C6: a send_message call whose (conversation_id, sender) pair has
no conversation_member row returns the NotMember error with the state
unchanged (the transaction is dropped, not committed). -/
theorem send_message_not_member (db : Db) (cid sender : Nat)
    (content : String) (mid now eid : Nat)
    (h : membership_exists_in_tx db cid sender = false) :
    send_message db cid sender content mid now eid =
      (db, Except.error ChatError.NotMember) := by
  simp [send_message, h]

/-- Witness for C6 at a concrete non-member send. -/
theorem send_message_not_member_witness :
    membership_exists_in_tx emptyDb 1 2 = false ∧
    send_message emptyDb 1 2 "hi" 3 4 5 =
      (emptyDb, Except.error ChatError.NotMember) :=
  ⟨by decide, send_message_not_member emptyDb 1 2 "hi" 3 4 5 (by decide)⟩

/-! ## Claim C9 -/

/-- Claim C9: the per-task timeout armed by the inbound receiver under the
config built by accept_connection is Duration::from_secs(1000), that is
1000000 milliseconds, not the 1 second (1000 milliseconds) the spec states. -/
theorem worker_timeout_not_one_second :
    worker_timeout_millis acceptConnectionConfig = 1000000 ∧
    acceptConnectionConfig.max_worker_timeout = 1000 ∧
    worker_timeout_millis acceptConnectionConfig ≠ 1000 := by decide

/-! ## Claim C2 -/

/-- Store with the two users of the C2 scenario. -/
def c2Db : Db := { emptyDb with users := [(1, "alice"), (2, "bob")] }

/-- Claim C2: refuted on the code. add_friend(1, 2) wins and returns
conversation 50, but the later add_friend(2, 1) for the same pair takes the
Existing path and fails, because get_conversation_id_by_friendship binds
its arguments to (user_min, user_max) without normalising, while the
direct_pair row was stored normalised as (1, 2). -/
theorem add_friend_swapped_order_fails :
    (add_friend c2Db 1 2 50 60 7).2 = Except.ok 50 ∧
    (add_friend (add_friend c2Db 1 2 50 60 7).1 2 1 51 61 8).2 =
      Except.error (RelationError.Store "inconsistent friendship state") ∧
    (add_friend (add_friend c2Db 1 2 50 60 7).1 1 2 51 61 8).2 =
      Except.ok 50 := by decide

/-! ## Claim C3 -/

/-- Claim C3: refuted on the code. The first create_group for
(owner 1, key 9) succeeds with (70, 71), but every later call with the same
pair fails with a decode error: the duplicate-key path of the claim SELECTs
the columns proposed_group, status and conversation_id and then reads a
column named group_id, which the result set does not contain. -/
theorem create_group_repeat_fails :
    (create_group emptyDb 1 "grp" 9 70 71).2 = Except.ok (70, 71) ∧
    (create_group (create_group emptyDb 1 "grp" 9 70 71).1 1 "grp" 9 72 73).2 =
      Except.error (RelationError.Store "uuid decode") := by decide

/-! ## Claim C1 -/

/-- The stored message of the duplicate-send scenario. -/
def c1Msg : MessageRow :=
  { message_id := 100, conversation_id := 10, message_offset := 1,
    sender_id := 1, content := "hi", created_at := 5 }

/-- Store after one message in conversation 10 between users 1 and 2. -/
def c1Db : Db := { emptyDb with
  counters := [(10, 1)],
  messages := [c1Msg],
  conversations := [{ conversation_id := 10, kind_id := 1,
                      last_msg_off := 1, last_msg_at := some 5 }],
  members := [(10, 1), (10, 2)],
  users := [(1, "alice"), (2, "bob")] }

/-- Claim C1 counterexample: resending message_id 100 returns the original
record unchanged, but the conversation counter moves from 1 to 2 (the
counter increment runs before duplicate detection, so the duplicate
consumes a counter value) and a new outbox event is enqueued. -/
theorem send_message_duplicate_consumes_counter :
    (send_message c1Db 10 1 "hi again" 100 7 200).2 = Except.ok c1Msg ∧
    (send_message c1Db 10 1 "hi again" 100 7 200).1.counters = [(10, 2)] ∧
    c1Db.counters = [(10, 1)] ∧
    (send_message c1Db 10 1 "hi again" 100 7 200).1.outbox.length =
      c1Db.outbox.length + 1 := by decide

/-- Claim C1 amended: a send_message call whose message_id equals that of an
already-stored message returns the original record unchanged and inserts no
new message row, but the conversation counter is incremented before the
duplicate is detected (the duplicate consumes a counter value) and a new
outbox event is enqueued for the duplicate. -/
theorem send_message_duplicate_spec (db : Db) (cid sender : Nat)
    (content : String) (mid now eid : Nat) (m0 : MessageRow)
    (c0 : Nat × Nat) (u0 : Nat × String)
    (hmem : membership_exists_in_tx db cid sender = true)
    (hdup : db.messages.find? (fun m => m.message_id == mid) = some m0)
    (hctr : db.counters.find? (fun p => p.1 == cid) = some c0)
    (huser : db.users.find? (fun u => u.1 == m0.sender_id) = some u0)
    (hev : db.outbox.any (fun r => r.event_id == eid) = false) :
    (send_message db cid sender content mid now eid).2 = Except.ok m0 ∧
    (send_message db cid sender content mid now eid).1.messages =
      db.messages ∧
    (send_message db cid sender content mid now eid).1.counters.find?
        (fun p => p.1 == cid) = some (c0.1, c0.2 + 1) ∧
    (send_message db cid sender content mid now eid).1.outbox.length =
      db.outbox.length + 1 := by
  simp only [send_message, insert_in_tx, counterUpsert, enqueue_in_tx,
    hmem, hctr, hdup, huser, hev, if_true, Bool.false_eq_true, if_false]
  refine ⟨trivial, trivial, ?_, ?_⟩
  · exact find?_counter_bump db.counters cid c0 hctr
  · simp

/-- Witness for the amended C1 at the concrete duplicate send. -/
theorem send_message_duplicate_spec_witness :
    membership_exists_in_tx c1Db 10 1 = true ∧
    c1Db.messages.find? (fun m => m.message_id == 100) = some c1Msg ∧
    c1Db.counters.find? (fun p => p.1 == 10) = some (10, 1) ∧
    c1Db.users.find? (fun u => u.1 == c1Msg.sender_id) = some (1, "alice") ∧
    c1Db.outbox.any (fun r => r.event_id == 200) = false ∧
    ((send_message c1Db 10 1 "hi again" 100 7 200).2 = Except.ok c1Msg ∧
     (send_message c1Db 10 1 "hi again" 100 7 200).1.messages =
       c1Db.messages ∧
     (send_message c1Db 10 1 "hi again" 100 7 200).1.counters.find?
         (fun p => p.1 == 10) = some (10, 1 + 1) ∧
     (send_message c1Db 10 1 "hi again" 100 7 200).1.outbox.length =
       c1Db.outbox.length + 1) :=
  ⟨by decide, by decide, by decide, by decide, by decide,
   send_message_duplicate_spec c1Db 10 1 "hi again" 100 7 200 c1Msg (10, 1)
     (1, "alice") (by decide) (by decide) (by decide) (by decide) (by decide)⟩

/-! ## Claim C10 -/

/-- Claim C10: inserting a message whose message_id duplicates a stored
message leaves every conversation row unchanged, provided the stored
offset and timestamp of the original are at most the current pointer
values (the GREATEST update then keeps the current values). -/
theorem insert_duplicate_preserves_pointers (db : Db) (cid sender : Nat)
    (content : String) (mid now : Nat) (m0 : MessageRow)
    (hdup : db.messages.find? (fun m => m.message_id == mid) = some m0)
    (hptr : ∀ c ∈ db.conversations, c.conversation_id = m0.conversation_id →
      m0.message_offset ≤ c.last_msg_off ∧
      ∃ t, c.last_msg_at = some t ∧ m0.created_at ≤ t) :
    (insert_in_tx db cid sender content mid now).1.conversations =
      db.conversations := by
  simp only [insert_in_tx, counterUpsert, hdup]
  refine list_map_eq_self db.conversations _ (fun c hc => ?_)
  by_cases hcid : c.conversation_id = m0.conversation_id
  · obtain ⟨h1, t, h2, h3⟩ := hptr c hc hcid
    simp only [show (c.conversation_id == m0.conversation_id) = true by
      simp [hcid], if_true, h2, Option.getD_some, Nat.max_eq_left h1,
      Nat.max_eq_left h3]
    cases c
    simp_all
  · simp [show (c.conversation_id == m0.conversation_id) = false by
      simp [hcid]]

/-- Witness for C10 at the concrete duplicate send of conversation 10. -/
theorem insert_duplicate_preserves_pointers_witness :
    c1Db.messages.find? (fun m => m.message_id == 100) = some c1Msg ∧
    (∀ c ∈ c1Db.conversations, c.conversation_id = c1Msg.conversation_id →
      c1Msg.message_offset ≤ c.last_msg_off ∧
      ∃ t, c.last_msg_at = some t ∧ c1Msg.created_at ≤ t) ∧
    (insert_in_tx c1Db 10 1 "hi again" 100 7).1.conversations =
      c1Db.conversations :=
  ⟨by decide, by decide,
   insert_duplicate_preserves_pointers c1Db 10 1 "hi again" 100 7 c1Msg
     (by decide) (by decide)⟩

/-! ## Claim C8 -/

/-- Replacing the value under one key leaves the key list unchanged. -/
theorem keys_map_replace (m : List (Nat × Nat)) (k v : Nat) :
    (m.map (fun p => if p.1 == k then (k, v) else p)).map Prod.fst =
      m.map Prod.fst := by
  induction m with
  | nil => rfl
  | cons q qs ih =>
      by_cases hq : q.1 = k
      · simp only [List.map_cons, show (q.1 == k) = true by simp [hq],
          if_true, ih]
        simp [hq]
      · simp only [List.map_cons, show (q.1 == k) = false by simp [hq],
          Bool.false_eq_true, if_false, ih]

/-- When the key is present, replacing it makes the lookup return the new
pair. -/
theorem find?_replace_hit (m : List (Nat × Nat)) (k v : Nat)
    (h : m.any (fun p => p.1 == k) = true) :
    (m.map (fun p => if p.1 == k then (k, v) else p)).find?
      (fun p => p.1 == k) = some (k, v) := by
  induction m with
  | nil => simp at h
  | cons q qs ih =>
      by_cases hq : q.1 = k
      · simp [hq]
      · have hqs : qs.any (fun p => p.1 == k) = true := by
          simpa [List.any_cons, show (q.1 == k) = false by simp [hq]] using h
        simp only [List.map_cons, show (q.1 == k) = false by simp [hq],
          Bool.false_eq_true, if_false, List.find?_cons]
        exact ih hqs

/-- When the key is absent, appending it makes the lookup return the new
pair. -/
theorem find?_append_miss (m : List (Nat × Nat)) (k v : Nat)
    (h : m.any (fun p => p.1 == k) = false) :
    (m ++ [(k, v)]).find? (fun p => p.1 == k) = some (k, v) := by
  induction m with
  | nil => simp
  | cons q qs ih =>
      have hq : (q.1 == k) = false := by
        by_contra hc
        simp [List.any_cons, show (q.1 == k) = true by simpa using hc] at h
      have hqs : qs.any (fun p => p.1 == k) = false := by
        simpa [List.any_cons, hq] using h
      simp only [List.cons_append, List.find?_cons, hq, Bool.false_eq_true]
      exact ih hqs

/-- Appending a fresh token does not change the reading of any other token. -/
theorem find?_tokens_append (l : List (Nat × Bool)) (n t : Nat) (b : Bool)
    (ht : t ≠ n) :
    (l ++ [(n, b)]).find? (fun p => p.1 == t) =
      l.find? (fun p => p.1 == t) := by
  have hnt : ¬ n = t := fun h => ht h.symm
  induction l with
  | nil => simp [show (n == t) = false by simp [hnt]]
  | cons q qs ih =>
      by_cases hq : q.1 = t
      · simp [hq]
      · simp only [List.cons_append, List.find?_cons,
          show (q.1 == t) = false by simp [hq], Bool.false_eq_true]
        exact ih

/-- Claim C8 amended: when the online map holds at most one record per user,
accept_connection preserves that invariant and replaces the record of the
connecting user with one holding the fresh token, but it cancels no
previously issued token: the cancelled flag of every other token is
unchanged. -/
theorem accept_connection_spec (st : SessionHubState) (uid : Nat)
    (hnd : (st.online_users.map Prod.fst).Nodup) :
    ((accept_connection st uid).online_users.map Prod.fst).Nodup ∧
    (accept_connection st uid).online_users.find? (fun p => p.1 == uid) =
      some (uid, st.next_token) ∧
    ∀ t, t ≠ st.next_token →
      token_cancelled (accept_connection st uid) t = token_cancelled st t := by
  refine ⟨?_, ?_, ?_⟩
  · show ((dashInsert st.online_users uid st.next_token).map Prod.fst).Nodup
    unfold dashInsert
    by_cases hk : st.online_users.any (fun p => p.1 == uid) = true
    · rw [if_pos hk, keys_map_replace]
      exact hnd
    · rw [if_neg hk, List.map_append]
      rw [List.nodup_append]
      refine ⟨hnd, by simp, ?_⟩
      intro a ha hb
      simp only [List.map_cons, List.map_nil, List.mem_singleton] at hb
      obtain ⟨p, hp, hpa⟩ := List.mem_map.mp ha
      exact hk (List.any_eq_true.mpr ⟨p, hp, by simp [hpa, hb]⟩)
  · show (dashInsert st.online_users uid st.next_token).find?
        (fun p => p.1 == uid) = some (uid, st.next_token)
    unfold dashInsert
    by_cases hk : st.online_users.any (fun p => p.1 == uid) = true
    · rw [if_pos hk]
      exact find?_replace_hit st.online_users uid st.next_token hk
    · rw [if_neg hk]
      exact find?_append_miss st.online_users uid st.next_token
        (Bool.eq_false_iff.mpr hk)
  · intro t ht
    show (((st.tokens ++ [(st.next_token, false)]).find?
        (fun p => p.1 == t)).map (fun p => p.2)).getD false =
      ((st.tokens.find? (fun p => p.1 == t)).map (fun p => p.2)).getD false
    rw [find?_tokens_append st.tokens st.next_token t false ht]

/-- Hub with user 1 online under token 0 and one token issued. -/
def c8St : SessionHubState :=
  { online_users := [(1, 0)], tokens := [(0, false)], next_token := 1 }

/-- Claim C8 counterexample: accepting a second connection for user 1
replaces the record (its token becomes the fresh token 1), but the previous
token 0 is still not cancelled, refuting the cancellation half of the
claim. -/
theorem accept_connection_does_not_cancel :
    c8St.online_users.find? (fun p => p.1 == 1) = some (1, 0) ∧
    token_cancelled c8St 0 = false ∧
    (accept_connection c8St 1).online_users.find? (fun p => p.1 == 1) =
      some (1, 1) ∧
    token_cancelled (accept_connection c8St 1) 0 = false := by decide

/-- Witness for the amended C8 at the concrete hub. -/
theorem accept_connection_spec_witness :
    (c8St.online_users.map Prod.fst).Nodup ∧
    (((accept_connection c8St 1).online_users.map Prod.fst).Nodup ∧
     (accept_connection c8St 1).online_users.find? (fun p => p.1 == 1) =
       some (1, c8St.next_token) ∧
     ∀ t, t ≠ c8St.next_token →
       token_cancelled (accept_connection c8St 1) t =
         token_cancelled c8St t) :=
  ⟨by decide, accept_connection_spec c8St 1 (by decide)⟩

/-! ## Claim C7 -/

/-- Claim C7 amended: enqueue on the session hub returns the
backpressure-retry error when the receiver has a record whose mailbox is
full (and open), and the not-connected error when the receiver has no
record; but the fan-out handler returns Commit whether or not enqueues were
dropped, so the broker consumer commits the offset instead of retrying. -/
theorem enqueue_fanout_commit_spec (online : List HubRecord) :
    (∀ receiver r, online.find? (fun q => q.user_id == receiver) = some r →
      r.mailbox.closed = false → r.mailbox.cap ≤ r.mailbox.len →
      (hub_enqueue online receiver).2 =
        Except.error EnqueueError.BackpressureRetry) ∧
    (∀ receiver, online.find? (fun q => q.user_id == receiver) = none →
      (hub_enqueue online receiver).2 =
        Except.error EnqueueError.NotConnected) ∧
    (∀ receivers, (fanout_handle online (some receivers)).2 =
        Except.ok HandleOutcome.Commit ∧
      consumer_commits (fanout_handle online (some receivers)).2 = true) := by
  refine ⟨?_, ?_, ?_⟩
  · intro receiver r hr hcl hfull
    simp [hub_enqueue, hr, hcl, hfull]
  · intro receiver hr
    simp [hub_enqueue, hr]
  · intro receivers
    exact ⟨rfl, rfl⟩

/-- Hub with a single online user whose mailbox is full. -/
def c7Hub : List HubRecord :=
  [{ user_id := 1, mailbox := { len := 5, cap := 5, closed := false } }]

/-- Claim C7 counterexample: with a full mailbox for user 1, enqueue does
return the backpressure-retry error, but the fan-out handler that observes
the dropped enqueue still returns Commit and the consumer commits the
offset, refuting the retry-without-commit part of the claim. -/
theorem fanout_commits_despite_drop :
    (hub_enqueue c7Hub 1).2 = Except.error EnqueueError.BackpressureRetry ∧
    (hub_enqueue c7Hub 2).2 = Except.error EnqueueError.NotConnected ∧
    (fanout_handle c7Hub (some [1])).2 = Except.ok HandleOutcome.Commit ∧
    consumer_commits (fanout_handle c7Hub (some [1])).2 = true := by decide

/-- Witness for the amended C7 at the concrete hub. -/
theorem enqueue_fanout_commit_spec_witness :
    (hub_enqueue c7Hub 1).2 = Except.error EnqueueError.BackpressureRetry ∧
    (hub_enqueue c7Hub 2).2 = Except.error EnqueueError.NotConnected ∧
    (fanout_handle c7Hub (some [1, 2])).2 = Except.ok HandleOutcome.Commit :=
  ⟨(enqueue_fanout_commit_spec c7Hub).1 1
      { user_id := 1, mailbox := { len := 5, cap := 5, closed := false } }
      (by decide) (by decide) (by decide),
   (enqueue_fanout_commit_spec c7Hub).2.1 2 (by decide),
   ((enqueue_fanout_commit_spec c7Hub).2.2 [1, 2]).1⟩

/-! ## Claim C5 -/

/-- Every claimed event is a stored row that is undelivered and due. -/
theorem mem_claim_ready (outbox : List OutboxRow) (now limit : Nat)
    (e : OutboxRow) (he : e ∈ claim_ready_batch_in_tx outbox now limit) :
    e ∈ outbox ∧ e.delivered_at = none ∧ e.next_attempt_at ≤ now := by
  unfold claim_ready_batch_in_tx at he
  have h1 : e ∈ (outbox.filter (outboxReady now)).insertionSort createdLE :=
    List.take_subset limit _ he
  have h2 : e ∈ outbox.filter (outboxReady now) :=
    (List.perm_insertionSort createdLE _).mem_iff.mp h1
  have h3 := List.of_mem_filter h2
  have h4 := List.mem_of_mem_filter h2
  unfold outboxReady at h3
  simp only [Bool.and_eq_true, beq_iff_eq, decide_eq_true_eq] at h3
  exact ⟨h4, h3.1, h3.2⟩

/-- mark_delivered only writes non-NULL delivered_at values. -/
theorem mark_delivered_keeps_delivered (acc : List OutboxRow) (e t eid : Nat)
    (h : ∀ r ∈ acc, r.event_id = eid → r.delivered_at ≠ none) :
    ∀ r ∈ mark_delivered_in_tx acc e t, r.event_id = eid →
      r.delivered_at ≠ none := by
  intro r hr heid
  unfold mark_delivered_in_tx at hr
  obtain ⟨r0, hr0, rfl⟩ := List.mem_map.mp hr
  by_cases he : (r0.event_id == e) = true
  · simp [he]
  · simp only [he, Bool.false_eq_true, if_false] at heid ⊢
    exact h r0 hr0 heid

/-- reschedule does not touch delivered_at. -/
theorem reschedule_keeps_delivered (acc : List OutboxRow) (e nx eid : Nat)
    (err : String)
    (h : ∀ r ∈ acc, r.event_id = eid → r.delivered_at ≠ none) :
    ∀ r ∈ reschedule_in_tx acc e nx err, r.event_id = eid →
      r.delivered_at ≠ none := by
  intro r hr heid
  unfold reschedule_in_tx at hr
  obtain ⟨r0, hr0, rfl⟩ := List.mem_map.mp hr
  by_cases he : (r0.event_id == e) = true
  · simp only [he, if_true] at heid ⊢
    exact h r0 hr0 heid
  · simp only [he, Bool.false_eq_true, if_false] at heid ⊢
    exact h r0 hr0 heid

/-- The publish loop of one tick preserves being delivered, whatever the
batch and the publish outcomes. -/
theorem publish_loop_keeps_delivered (eid now2 : Nat) (ok : Nat → Bool)
    (bs : List OutboxRow) (acc : List OutboxRow)
    (h : ∀ r ∈ acc, r.event_id = eid → r.delivered_at ≠ none) :
    ∀ r ∈ bs.foldl (fun acc ev =>
        if ok ev.event_id then mark_delivered_in_tx acc ev.event_id now2
        else reschedule_in_tx acc ev.event_id (now2 + 2) "publish error") acc,
      r.event_id = eid → r.delivered_at ≠ none := by
  induction bs generalizing acc with
  | nil => exact h
  | cons b bs ih =>
      simp only [List.foldl_cons]
      apply ih
      by_cases hok : ok b.event_id = true
      · rw [if_pos hok]
        exact mark_delivered_keeps_delivered acc b.event_id now2 eid h
      · rw [if_neg hok]
        exact reschedule_keeps_delivered acc b.event_id (now2 + 2) eid
          "publish error" h

/-- One notifier tick preserves being delivered. -/
theorem tick_keeps_delivered (outbox : List OutboxRow) (now : Nat)
    (ok : Nat → Bool) (eid : Nat)
    (h : ∀ r ∈ outbox, r.event_id = eid → r.delivered_at ≠ none) :
    ∀ r ∈ tick_once outbox now ok, r.event_id = eid →
      r.delivered_at ≠ none := by
  unfold tick_once
  exact publish_loop_keeps_delivered eid now ok _ outbox h

/-- Any schedule of ticks preserves being delivered. -/
theorem run_ticks_keeps_delivered (outbox : List OutboxRow) (eid : Nat)
    (inputs : List (Nat × (Nat → Bool)))
    (h : ∀ r ∈ outbox, r.event_id = eid → r.delivered_at ≠ none) :
    ∀ r ∈ run_ticks outbox inputs, r.event_id = eid →
      r.delivered_at ≠ none := by
  induction inputs generalizing outbox with
  | nil => exact h
  | cons inp rest ih =>
      obtain ⟨now, ok⟩ := inp
      exact ih (tick_once outbox now ok)
        (tick_keeps_delivered outbox now ok eid h)

/-- A delivered event is never claimed again along any schedule of ticks. -/
theorem delivered_never_claimed (outbox : List OutboxRow) (eid : Nat)
    (inputs : List (Nat × (Nat → Bool)))
    (h : ∀ r ∈ outbox, r.event_id = eid → r.delivered_at ≠ none) :
    never_claims outbox eid inputs := by
  induction inputs generalizing outbox with
  | nil => trivial
  | cons inp rest ih =>
      obtain ⟨now, ok⟩ := inp
      refine ⟨?_, ih (tick_once outbox now ok)
        (tick_keeps_delivered outbox now ok eid h)⟩
      intro hmem
      obtain ⟨e, he, heid⟩ := List.mem_map.mp hmem
      have hr := mem_claim_ready outbox now 256 e he
      exact (h e hr.1 heid) hr.2.1

/-- Claim C5: a notifier tick claims only outbox rows with
delivered_at IS NULL and next_attempt_at at most now, at most 256 of them,
oldest created_at first; and once every row carrying an event id is
delivered, no tick of any later schedule ever claims (hence publishes) that
event again, and the rows stay delivered. -/
theorem notifier_claim_delivery_spec (outbox : List OutboxRow) (eid : Nat)
    (inputs : List (Nat × (Nat → Bool)))
    (hdeliv : ∀ r ∈ outbox, r.event_id = eid → r.delivered_at ≠ none) :
    (∀ now limit e, e ∈ claim_ready_batch_in_tx outbox now limit →
      e ∈ outbox ∧ e.delivered_at = none ∧ e.next_attempt_at ≤ now) ∧
    (∀ now, (claim_ready_batch_in_tx outbox now 256).length ≤ 256 ∧
      (claim_ready_batch_in_tx outbox now 256).Pairwise createdLE) ∧
    never_claims outbox eid inputs ∧
    (∀ r ∈ run_ticks outbox inputs, r.event_id = eid →
      r.delivered_at ≠ none) := by
  refine ⟨?_, ?_, delivered_never_claimed outbox eid inputs hdeliv,
    run_ticks_keeps_delivered outbox eid inputs hdeliv⟩
  · intro now limit e he
    exact mem_claim_ready outbox now limit e he
  · intro now
    constructor
    · exact List.length_take_le 256 _
    · have hs : ((outbox.filter (outboxReady now)).insertionSort
          createdLE).Pairwise createdLE :=
        List.sorted_insertionSort createdLE _
      exact hs.sublist (List.take_sublist 256 _)

/-- Single delivered outbox row for the C5 witness. -/
def c5Rows : List OutboxRow :=
  [{ event_id := 7, event_type := EventType.ChatMessageNew,
     partition_key := some 10, receivers := [2],
     payload := S2CEventM.ChatMessageNew
       { conversation_id := 10, message_id := 100, message_offset := 1,
         content := "hi", sender := 1, username := "alice", created_at := 5 },
     created_at := 1, delivered_at := some 3, next_attempt_at := 1,
     attempt_count := 0, last_error := none }]

/-- Two-tick schedule for the C5 witness. -/
def c5Inputs : List (Nat × (Nat → Bool)) :=
  [(5, fun _ => true), (6, fun _ => false)]

/-- Witness for C5 at the concrete delivered row and schedule. -/
theorem notifier_claim_delivery_spec_witness :
    (∀ r ∈ c5Rows, r.event_id = 7 → r.delivered_at ≠ none) ∧
    ((∀ now limit e, e ∈ claim_ready_batch_in_tx c5Rows now limit →
        e ∈ c5Rows ∧ e.delivered_at = none ∧ e.next_attempt_at ≤ now) ∧
     (∀ now, (claim_ready_batch_in_tx c5Rows now 256).length ≤ 256 ∧
        (claim_ready_batch_in_tx c5Rows now 256).Pairwise createdLE) ∧
     never_claims c5Rows 7 c5Inputs ∧
     (∀ r ∈ run_ticks c5Rows c5Inputs, r.event_id = 7 →
        r.delivered_at ≠ none)) :=
  ⟨by decide, notifier_claim_delivery_spec c5Rows 7 c5Inputs (by decide)⟩

/-! ## Claim C4 -/

/-- The offsets of a history page (empty on error), for stating the concrete
pagination examples. -/
def historyOffsets : Except ChatError (List MessageRow) → List Nat
  | Except.ok r => r.map (fun m => m.message_offset)
  | Except.error _ => []

/-- Fifteen stored messages with offsets 1..15 in conversation 20. -/
def c4Msgs : List MessageRow :=
  (List.range 15).map (fun i =>
    { message_id := 200 + i, conversation_id := 20, message_offset := i + 1,
      sender_id := 1, content := "m", created_at := i + 1 })

/-- Store for the pagination scenario with user 1 a member of
conversation 20. -/
def c4Db : Db := { emptyDb with messages := c4Msgs, members := [(20, 1)] }

/-- Claim C4: get_history of a member returns the page_size highest-offset
qualifying messages (all of them when fewer exist), presented in strictly
ascending offset order; every omitted qualifying message has a lower offset
than everything on the page; and the two 15-message examples produce
offsets 6..15 and then 1..5, each ascending. The distinct-offsets hypothesis
is the per-conversation uniqueness invariant of message_offset. -/
theorem get_history_page_spec :
    (∀ (msgs : List MessageRow) (cid : Nat) (before : Option Nat)
        (m : MessageRow),
      m ∈ historyFilter msgs cid before ↔
        m ∈ msgs ∧ m.conversation_id = cid ∧
        ∀ b, before = some b → m.message_offset < b) ∧
    (∀ (db : Db) (uid cid ps : Nat) (before : Option Nat),
      membership_exists_in_tx db cid uid = true →
      (historyFilter db.messages cid before).Pairwise
        (fun a b => a.message_offset ≠ b.message_offset) →
      ∃ r, get_history db uid cid ps before = Except.ok r ∧
        r.length = min ps (historyFilter db.messages cid before).length ∧
        (∀ m ∈ r, m ∈ historyFilter db.messages cid before) ∧
        r.Pairwise (fun a b => a.message_offset < b.message_offset) ∧
        (∀ m ∈ historyFilter db.messages cid before, m ∉ r →
          ∀ m2 ∈ r, m.message_offset < m2.message_offset)) ∧
    historyOffsets (get_history c4Db 1 20 10 none) =
      [6, 7, 8, 9, 10, 11, 12, 13, 14, 15] ∧
    historyOffsets (get_history c4Db 1 20 10 (some 6)) = [1, 2, 3, 4, 5] := by
  refine ⟨?_, ?_, by decide, by decide⟩
  · intro msgs cid before m
    cases before with
    | none => simp [historyFilter, List.mem_filter]
    | some b => simp [historyFilter, List.mem_filter, and_assoc]
  · intro db uid cid ps before hmem hnd
    refine ⟨list_before_in_tx db.messages cid ps before, ?_, ?_, ?_, ?_, ?_⟩
    · simp [get_history, hmem]
    · show ((((historyFilter db.messages cid before).insertionSort
          msgOffGE).take ps).reverse).length = _
      rw [List.length_reverse, List.length_take,
        (List.perm_insertionSort msgOffGE _).length_eq]
    · intro m hm
      rw [list_before_in_tx, List.mem_reverse] at hm
      exact (List.perm_insertionSort msgOffGE _).mem_iff.mp
        (List.take_subset _ _ hm)
    · have hsorted : ((historyFilter db.messages cid before).insertionSort
          msgOffGE).Pairwise msgOffGE :=
        List.sorted_insertionSort msgOffGE _
      have htake := hsorted.sublist (List.take_sublist ps _)
      have hrev : (list_before_in_tx db.messages cid ps before).Pairwise
          (fun a b => a.message_offset ≤ b.message_offset) :=
        List.pairwise_reverse.mpr htake
      have hnds : ((historyFilter db.messages cid before).insertionSort
          msgOffGE).Pairwise (fun a b => a.message_offset ≠ b.message_offset) :=
        ((List.perm_insertionSort msgOffGE _).pairwise_iff
          (fun hab => Ne.symm hab)).mpr hnd
      have hndtake := hnds.sublist (List.take_sublist ps _)
      have hndrev : (list_before_in_tx db.messages cid ps before).Pairwise
          (fun a b => a.message_offset ≠ b.message_offset) :=
        List.pairwise_reverse.mpr (hndtake.imp (fun hab => Ne.symm hab))
      exact (hrev.and hndrev).imp
        (fun hab => Nat.lt_of_le_of_ne hab.1 hab.2)
    · intro m hmq hmr m2 hm2r
      have hperm := List.perm_insertionSort msgOffGE
        (historyFilter db.messages cid before)
      have hms : m ∈ (historyFilter db.messages cid before).insertionSort
          msgOffGE := hperm.mem_iff.mpr hmq
      have hsplit := List.take_append_drop ps
        ((historyFilter db.messages cid before).insertionSort msgOffGE)
      have hcases : m ∈ ((historyFilter db.messages cid before).insertionSort
            msgOffGE).take ps ∨
          m ∈ ((historyFilter db.messages cid before).insertionSort
            msgOffGE).drop ps := by
        rw [← hsplit] at hms
        exact List.mem_append.mp hms
      have hmdrop : m ∈ ((historyFilter db.messages cid before).insertionSort
          msgOffGE).drop ps := by
        rcases hcases with h | h
        · exact absurd (List.mem_reverse.mpr h) hmr
        · exact h
      have hm2take : m2 ∈ ((historyFilter db.messages cid
          before).insertionSort msgOffGE).take ps :=
        List.mem_reverse.mp hm2r
      have hsorted : ((historyFilter db.messages cid before).insertionSort
          msgOffGE).Pairwise msgOffGE :=
        List.sorted_insertionSort msgOffGE _
      have hsorted2 : (((historyFilter db.messages cid before).insertionSort
          msgOffGE).take ps ++ ((historyFilter db.messages cid
          before).insertionSort msgOffGE).drop ps).Pairwise msgOffGE := by
        rw [hsplit]
        exact hsorted
      have hle : msgOffGE m2 m :=
        (List.pairwise_append.mp hsorted2).2.2 m2 hm2take m hmdrop
      have hnds : ((historyFilter db.messages cid before).insertionSort
          msgOffGE).Pairwise (fun a b => a.message_offset ≠ b.message_offset) :=
        (hperm.pairwise_iff (fun hab => Ne.symm hab)).mpr hnd
      have hnds2 : (((historyFilter db.messages cid before).insertionSort
          msgOffGE).take ps ++ ((historyFilter db.messages cid
          before).insertionSort msgOffGE).drop ps).Pairwise
          (fun a b => a.message_offset ≠ b.message_offset) := by
        rw [hsplit]
        exact hnds
      have hne : m2.message_offset ≠ m.message_offset :=
        (List.pairwise_append.mp hnds2).2.2 m2 hm2take m hmdrop
      exact Nat.lt_of_le_of_ne hle (Ne.symm hne)

/-- Witness for C4: the general page characterization applied at the
15-message store with page_size 10 and no cursor. -/
theorem get_history_page_spec_witness :
    membership_exists_in_tx c4Db 20 1 = true ∧
    (historyFilter c4Db.messages 20 none).Pairwise
      (fun a b => a.message_offset ≠ b.message_offset) ∧
    ∃ r, get_history c4Db 1 20 10 none = Except.ok r ∧
      r.length = min 10 (historyFilter c4Db.messages 20 none).length ∧
      (∀ m ∈ r, m ∈ historyFilter c4Db.messages 20 none) ∧
      r.Pairwise (fun a b => a.message_offset < b.message_offset) ∧
      (∀ m ∈ historyFilter c4Db.messages 20 none, m ∉ r →
        ∀ m2 ∈ r, m.message_offset < m2.message_offset) :=
  ⟨by decide, by decide,
   get_history_page_spec.2.1 c4Db 1 20 10 none (by decide) (by decide)⟩

end Counterpoint
